import Mathlib

/-! httpppc: PROXY protocol v1 header injection at dial time

A shallow embedding of `httpppc.go` (`New`, the dial function `transport.RoundTrip`
reaches, `dialContextIntercepter.DialContext`) together with the Go library
functions `DialContext` calls (`net.SplitHostPort`, `strconv.Atoi`,
`net.ParseIP`, `IP.To4`, `IP.String`, `proxyproto.Header.WriteTo`).

Go strings and byte slices holding text are lists of characters; a `net.IP`
is a list of bytes; connections and transports live in explicit heaps, a
`net.Conn` or `*http.Transport` being an index into its heap.  A Go call that
panics is the outcome `panic`.  Each activation of `DialContext` also yields the
list of its own actions (call of the wrapped dial, header built, `Write`), which
is how "exactly once" and "no header built" are stated.
-/

namespace Httpppc

/-! ## Go values -/

/-- A Go `string` (or a `[]byte` holding text): the sequence of its characters. -/
abbrev GoString := List Char

/-- A Go `error` value.  `errorString` is what `errors.New` returns; `foreign`
is any error value created outside this package (dialer, connection, ...),
identified by `id` and carrying the text its `Error()` method returns. -/
inductive GoError where
  | foreign (id : Nat) (msg : GoString)
  | errorString (msg : GoString)
  deriving DecidableEq, Repr

/-- The `Error()` method. -/
def GoError.Error : GoError → GoString
  | .foreign _ m => m
  | .errorString m => m

/-- Go's `errors.New`. -/
def errorsNew (msg : GoString) : GoError := .errorString msg

deriving instance DecidableEq for Except

/-- A `context.Context`, identified by `id`. -/
structure Context where
  id : Nat
  deriving DecidableEq, Repr

/-- A `net.IP`: a byte slice (`nil` is the empty list). -/
abbrev IP := List UInt8

/-! ## `strconv` -/

/-- Decimal digits of a natural number, most significant first. -/
def natDigits (n : Nat) : GoString := Nat.toDigits 10 n

/-- Go's `strconv.Itoa`. -/
def Itoa (i : Int) : GoString :=
  match i with
  | Int.ofNat n => natDigits n
  | Int.negSucc n => '-' :: natDigits (n + 1)

/-- Value of a run of decimal digits, `none` when a character is not `0`..`9`
(the loop `n = n*10 + int(ch - 0x30)` of `strconv.Atoi` / `ParseUint`). -/
def parseDigits : GoString → Nat → Option Nat
  | [], acc => some acc
  | ch :: rest, acc =>
    if '0' ≤ ch ∧ ch ≤ '9' then parseDigits rest (acc * 10 + (ch.toNat - '0'.toNat))
    else none

/-- Go's `strconv.Atoi` on a 64-bit platform: an optional sign followed by one or
more decimal digits, the value within the range of `int`; `none` stands for the
`*NumError` (syntax or range) that `DialContext` only tests against `nil`. -/
def Atoi (s : GoString) : Option Int :=
  match s with
  | [] => none
  | c :: rest =>
    let digits := if c = '-' ∨ c = '+' then rest else s
    if digits = [] then none
    else
      match parseDigits digits 0 with
      | none => none
      | some n =>
        if c = '-' then
          if n ≤ 2 ^ 63 then some (-(n : Int)) else none
        else
          if n < 2 ^ 63 then some (n : Int) else none

/-! ## `net.SplitHostPort` -/

/-- Index of the first occurrence of `c` (`bytealg.IndexByteString`). -/
def indexByte (s : GoString) (c : Char) : Option Nat :=
  match s with
  | [] => none
  | x :: xs => if x = c then some 0 else (indexByte xs c).map (· + 1)

/-- Index of the last occurrence of `c` (`bytealg.LastIndexByteString`). -/
def lastIndexByte (s : GoString) (c : Char) : Option Nat :=
  match s with
  | [] => none
  | x :: xs =>
    match lastIndexByte xs c with
    | some i => some (i + 1)
    | none => if x = c then some 0 else none

/-- Go's `net.SplitHostPort`: `some (host, port)`, or `none` for the
`*AddrError` it returns (missing port, too many colons, missing or unexpected
bracket). -/
def SplitHostPort (hostport : GoString) : Option (GoString × GoString) :=
  match lastIndexByte hostport ':' with
  | none => none                                   -- missing port in address
  | some i =>
    if hostport.head? = some '[' then
      match indexByte hostport ']' with
      | none => none                               -- missing ']' in address
      | some e =>
        if e + 1 = hostport.length then none       -- missing port in address
        else if e + 1 = i then
          let host := (hostport.take e).drop 1
          if (indexByte (hostport.drop 1) '[').isSome then none
          else if (indexByte (hostport.drop (e + 1)) ']').isSome then none
          else some (host, hostport.drop (i + 1))
        else none                                  -- too many colons / missing port
    else
      let host := hostport.take i
      if (indexByte host ':').isSome then none     -- too many colons in address
      else if (indexByte hostport '[').isSome then none
      else if (indexByte hostport ']').isSome then none
      else some (host, hostport.drop (i + 1))

/-! ## `net.IP` -/

/-- Go's `netip.parseIPv4` loop.  `prev` is the character before the current one
(`none` at index 0), `fields` the octets completed so far (`pos` is their number),
`val` and `digLen` the value and digit count of the octet being read. -/
def parseIPv4Loop : GoString → Option Char → List UInt8 → Nat → Nat → Option IP
  | [], _, fields, val, _ =>
    if fields.length < 3 then none                 -- IPv4 address too short
    else some (fields ++ [val.toUInt8])
  | c :: rest, prev, fields, val, digLen =>
    if '0' ≤ c ∧ c ≤ '9' then
      if digLen = 1 ∧ val = 0 then none            -- octet with leading zero
      else
        let v := val * 10 + (c.toNat - '0'.toNat)
        if v > 255 then none                       -- field has value >255
        else parseIPv4Loop rest (some c) fields v (digLen + 1)
    else if c = '.' then
      if prev = none ∨ rest = [] ∨ prev = some '.' then none
      else if fields.length = 3 then none          -- IPv4 address too long
      else parseIPv4Loop rest (some c) (fields ++ [val.toUInt8]) 0 0
    else none                                      -- unexpected character

/-- Go's `netip.parseIPv4`: the four octets of a dotted-decimal literal. -/
def parseIPv4 (s : GoString) : Option IP := parseIPv4Loop s none [] 0 0

/-- Value of a hexadecimal digit. -/
def hexVal (c : Char) : Option Nat :=
  if '0' ≤ c ∧ c ≤ '9' then some (c.toNat - '0'.toNat)
  else if 'a' ≤ c ∧ c ≤ 'f' then some (c.toNat - 'a'.toNat + 10)
  else if 'A' ≤ c ∧ c ≤ 'F' then some (c.toNat - 'A'.toNat + 10)
  else none

/-- The inner loop of `netip.parseIPv6` reading one hexadecimal group: the number
of digits read (`off`), their value, and the unread rest; `none` when the group
has more than four digits or exceeds 16 bits. -/
def scanHex : GoString → Nat → Nat → Option (Nat × Nat × GoString)
  | [], off, acc => some (off, acc, [])
  | c :: rest, off, acc =>
    match hexVal c with
    | none => some (off, acc, c :: rest)
    | some v =>
      let a := acc * 16 + v
      if off > 3 then none
      else if a > 65535 then none
      else scanHex rest (off + 1) a

/-- The main loop of `netip.parseIPv6`.  `ip` holds the bytes stored so far (the
Go index `i` is `ip.length`), `ellipsis` the position of `::` if seen.  The
first argument counts the 16-bit groups still free: every iteration that
continues stores two bytes, so the Go test `i < 16` is `groups ≠ 0`.  Returns the
unread input, the bytes and the ellipsis position at loop exit. -/
def parseIPv6Loop : Nat → GoString → IP → Option Nat → Option (GoString × IP × Option Nat)
  | 0, s, ip, ellipsis => some (s, ip, ellipsis)
  | groups + 1, s, ip, ellipsis =>
    match scanHex s 0 0 with
    | none => none
    | some (off, acc, rest) =>
      if off = 0 then none                         -- field must have at least one digit
      else if rest.head? = some '.' then
        if ellipsis = none ∧ ip.length ≠ 12 then none
        else if ip.length + 4 > 16 then none
        else
          match parseIPv4 s with
          | none => none
          | some ip4 => some ([], ip ++ ip4, ellipsis)
      else
        let ip1 := ip ++ [(acc / 256).toUInt8, (acc % 256).toUInt8]
        match rest with
        | [] => some ([], ip1, ellipsis)
        | c :: rest1 =>
          if c ≠ ':' then none                     -- unexpected character, want colon
          else
            match rest1 with
            | [] => none                           -- colon must be followed by more
            | d :: rest2 =>
              if d = ':' then
                if ellipsis.isSome then none       -- multiple :: in address
                else if rest2 = [] then some ([], ip1, some ip1.length)
                else parseIPv6Loop groups rest2 ip1 (some ip1.length)
              else parseIPv6Loop groups rest1 ip1 ellipsis

/-- Go's `netip.parseIPv6` as used by `net.ParseIP`, which rejects every literal
with a zone: the 16 bytes of the address. -/
def parseIPv6 (s : GoString) : Option IP :=
  if (indexByte s '%').isSome then none
  else
    let lead := s.take 2 = [':', ':']
    let s1 := if lead then s.drop 2 else s
    if lead ∧ s1 = [] then some (List.replicate 16 0)
    else
      match parseIPv6Loop 8 s1 [] (if lead then some 0 else none) with
      | none => none
      | some (rest, ip, ellipsis) =>
        if rest ≠ [] then none                     -- trailing garbage after address
        else if ip.length < 16 then
          match ellipsis with
          | none => none                           -- address string too short
          | some e => some (ip.take e ++ List.replicate (16 - ip.length) 0 ++ ip.drop e)
        else if ellipsis.isSome then none          -- :: must expand to at least one field
        else some ip

/-- The IPv4-in-IPv6 prefix `::ffff:0:0/96`. -/
def v4InV6Prefix : IP := [0, 0, 0, 0, 0, 0, 0, 0, 0, 0, 0xff, 0xff]

/-- Go's `net.IPv4`: the 16-byte form of an IPv4 address. -/
def IPv4 (a b c d : UInt8) : IP := v4InV6Prefix ++ [a, b, c, d]

/-- Dispatch of `netip.ParseAddr` on the first `.`, `:` or `%` of the literal,
followed by `As16`. -/
def parseAddrFrom (s : GoString) : GoString → Option IP
  | [] => none                                     -- unable to parse IP
  | c :: rest =>
    if c = '.' then (parseIPv4 s).map (v4InV6Prefix ++ ·)
    else if c = ':' then parseIPv6 s
    else if c = '%' then none                      -- missing IPv6 address
    else parseAddrFrom s rest

/-- Go's `net.ParseIP`: the 16-byte form of the address a literal denotes, `none`
for Go's `nil`. -/
def ParseIP (s : GoString) : Option IP := parseAddrFrom s s

/-- Go's `IP.To4`: the 4-byte form, `none` for Go's `nil`. -/
def To4 (ip : IP) : Option IP :=
  if ip.length = 4 then some ip
  else if ip.length = 16 ∧ ip.take 12 = v4InV6Prefix then some (ip.drop 12)
  else none

/-- Go's `IP.To16`: the 16-byte form, `none` for Go's `nil`. -/
def To16 (ip : IP) : Option IP :=
  if ip.length = 4 then some (v4InV6Prefix ++ ip)
  else if ip.length = 16 then some ip
  else none

/-- Dotted-decimal text of a list of octets (`netip.Addr.string4`). -/
def dotted : IP → GoString
  | [] => []
  | [b] => natDigits b.toNat
  | b :: rest => natDigits b.toNat ++ '.' :: dotted rest

/-- The eight 16-bit groups of a 16-byte address. -/
def groups16 : IP → List Nat
  | hi :: lo :: rest => (hi.toNat * 256 + lo.toNat) :: groups16 rest
  | _ => []

/-- Length of the run of zero groups at the head of a list. -/
def zeroRun : List Nat → Nat
  | 0 :: rest => zeroRun rest + 1
  | _ => 0

/-- First loop of `netip.Addr.appendTo6`: the bounds of the first longest run of
at least two zero groups, scanning the groups from index `i`; `(255, 255)` when
there is none. -/
def findZeros : List Nat → Nat → Nat × Nat → Nat × Nat
  | [], _, z => z
  | g :: gs, i, (zeroStart, zeroEnd) =>
    let l := zeroRun (g :: gs)
    findZeros gs (i + 1) (if l ≥ 2 ∧ l > zeroEnd - zeroStart then (i, i + l) else (zeroStart, zeroEnd))

/-- Second loop of `netip.Addr.appendTo6`, from group index `i`; the first
argument bounds the number of iterations (`i` grows in each). -/
def appendGroups : Nat → List Nat → Nat → Nat × Nat → GoString
  | 0, _, _, _ => []
  | fuel + 1, gs, i, (zeroStart, zeroEnd) =>
    if i ≥ 8 then []
    else if i = zeroStart then
      if zeroEnd ≥ 8 then [':', ':']
      else ':' :: ':' :: (Nat.toDigits 16 (gs.getD zeroEnd 0) ++
        appendGroups fuel gs (zeroEnd + 1) (zeroStart, zeroEnd))
    else
      (if i > 0 then [':'] else []) ++ Nat.toDigits 16 (gs.getD i 0) ++
        appendGroups fuel gs (i + 1) (zeroStart, zeroEnd)

/-- Text of a 16-byte address that has no 4-byte form (`netip.Addr.string6`). -/
def string6 (ip : IP) : GoString :=
  let gs := groups16 ip
  appendGroups 8 gs 0 (findZeros gs 0 (255, 255))

/-- Lower-case hexadecimal text of a byte slice (`net.hexString`). -/
def hexString : IP → GoString
  | [] => []
  | b :: rest => Nat.digitChar (b.toNat / 16) :: Nat.digitChar (b.toNat % 16) :: hexString rest

/-- Go's `IP.String`. -/
def IP.String (ip : IP) : GoString :=
  if ip.length = 0 then "<nil>".toList
  else if ip.length ≠ 4 ∧ ip.length ≠ 16 then '?' :: hexString ip
  else
    match To4 ip with
    | some p4 => dotted p4
    | none => string6 ip

/-! ## Connections and the world a dial runs in -/

/-- State of one `net.Conn`.  `remoteAddr` is the text `RemoteAddr().String()`
yields (`none` when `RemoteAddr()` is `nil`); `respond wire p` is the pair
`(n, err)` the connection's `Write(p)` returns when `wire` has already been
accepted; `wire` collects the bytes accepted so far, `writeCalls` the arguments
of every `Write` call, `closed` whether `Close` has been called. -/
structure ConnState where
  remoteAddr : Option GoString
  respond : GoString → GoString → Nat × Option GoError
  wire : GoString
  writeCalls : List GoString
  closed : Bool

/-- The mutable world: the connections (a `net.Conn` value is its index) and
`env`, the state of everything else a dialer may depend on. -/
structure World where
  conns : Nat → ConnState
  env : Nat

/-- Result of a Go call that returns `(net.Conn, error)`, or panics. -/
inductive Outcome where
  | panic
  | ret (conn : Option Nat) (err : Option GoError)
  deriving DecidableEq, Repr

/-- A dial function `func(ctx, network, addr) (net.Conn, error)`. -/
abbrev DialFn := Context → GoString → GoString → World → Outcome × World

/-- The method `conn.Write(p)`: the connection answers `(n, err)`, the first `n`
bytes of `p` reach the wire. -/
def connWrite (c : Nat) (p : GoString) (w : World) : (Nat × Option GoError) × World :=
  let st := w.conns c
  let r := st.respond st.wire p
  let st1 : ConnState := { st with wire := st.wire ++ p.take r.1, writeCalls := st.writeCalls ++ [p] }
  (r, { w with conns := Function.update w.conns c st1 })

/-! ## `github.com/pires/go-proxyproto` -/

/-- The library's `ProtocolVersionAndCommand`. -/
inductive ProtocolVersionAndCommand where
  | LOCAL
  | PROXY
  deriving DecidableEq, Repr

/-- The library's `AddressFamilyAndProtocol`. -/
inductive AddressFamilyAndProtocol where
  | UNSPEC
  | TCPv4
  | UDPv4
  | TCPv6
  | UDPv6
  | UnixStream
  | UnixDatagram
  deriving DecidableEq, Repr

/-- A `net.TCPAddr` (the zone is never set by this package). -/
structure TCPAddr where
  ip : IP
  Port : Int
  deriving DecidableEq, Repr

/-- The library's `Header`; both addresses are `*net.TCPAddr` values, the only
kind `DialContext` stores. -/
structure Header where
  Version : Nat
  Command : ProtocolVersionAndCommand
  TransportProtocol : AddressFamilyAndProtocol
  SourceAddr : TCPAddr
  DestinationAddr : TCPAddr
  deriving DecidableEq, Repr

/-- What one activation of `DialContext` does, in program order: calls of the
wrapped dial, headers built, `Write` calls on a connection. -/
inductive Event where
  | callReal (ctx : Context) (network addr : GoString)
  | buildHeader (h : Header)
  | connWrite (conn : Nat) (p : GoString)
  deriving DecidableEq, Repr

/-- The library's `ErrInvalidAddress`. -/
def ErrInvalidAddress : GoError := .foreign 1 "proxyproto: invalid address".toList

/-- The library's `ErrUnknownProxyProtocolVersion`. -/
def ErrUnknownProxyProtocolVersion : GoError :=
  .foreign 2 "proxyproto: unknown proxy protocol version".toList

/-- Go's `io.ErrShortWrite`. -/
def ErrShortWrite : GoError := .foreign 3 "short write".toList

/-- The version 1 line: signature, protocol token, the two addresses, the two
ports, separated by single spaces and ended by CRLF. -/
def v1Line (proto : GoString) (src dst : IP) (srcPort dstPort : Int) : GoString :=
  "PROXY".toList ++ ' ' :: proto ++ ' ' :: IP.String src ++ ' ' :: IP.String dst ++
    ' ' :: Itoa srcPort ++ ' ' :: Itoa dstPort ++ ['\r', '\n']

/-- Modelled from the spec: the PROXY protocol v1 encoder is an external
capability (`Header.formatVersion1` of the library, not under `src/`) that
serialises a header description into one ASCII line, fields in fixed order,
CRLF-terminated.  For `TCPv4` both addresses are taken in 4-byte form, for
`TCPv6` in 16-byte form, and an address without that form is
`ErrInvalidAddress`; any other transport protocol gives the short `UNKNOWN`
line. -/
def formatVersion1 (h : Header) : Except GoError GoString :=
  match h.TransportProtocol with
  | .TCPv4 =>
    match To4 h.SourceAddr.ip, To4 h.DestinationAddr.ip with
    | some s, some d => .ok (v1Line "TCP4".toList s d h.SourceAddr.Port h.DestinationAddr.Port)
    | _, _ => .error ErrInvalidAddress
  | .TCPv6 =>
    match To16 h.SourceAddr.ip, To16 h.DestinationAddr.ip with
    | some s, some d => .ok (v1Line "TCP6".toList s d h.SourceAddr.Port h.DestinationAddr.Port)
    | _, _ => .error ErrInvalidAddress
  | _ => .ok "PROXY UNKNOWN\r\n".toList

/-- Modelled from the spec: `Header.Format` of the external encoder.  Version 1
is the text framing above; version 2 (binary framing) is out of scope and never
requested by this package, so every other version is the library's
unknown-version error here. -/
def Format (h : Header) : Except GoError GoString :=
  if h.Version = 1 then formatVersion1 h else .error ErrUnknownProxyProtocolVersion

/-- Result of `Header.WriteTo`: it panics, or returns an error or `nil`. -/
inductive WriteOutcome where
  | panic
  | done (err : Option GoError)
  deriving DecidableEq, Repr

/-- Modelled from the spec: `Header.WriteTo(conn)` of the external encoder,
`Format` followed by `bytes.Buffer.WriteTo`: the whole header is handed to the
connection in one `Write` call; a count larger than the buffer panics, an error
from `Write` is returned as is, a short count without error is
`io.ErrShortWrite`.  Returns the outcome, the world and the `Write` calls made. -/
def WriteTo (h : Header) (c : Nat) (w : World) : WriteOutcome × World × List Event :=
  match Format h with
  | .error e => (.done (some e), w, [])
  | .ok buf =>
    if buf.length > 0 then
      let r := connWrite c buf w
      let m := r.1.1
      if m > buf.length then (.panic, r.2, [.connWrite c buf])
      else
        match r.1.2 with
        | some e => (.done (some e), r.2, [.connWrite c buf])
        | none =>
          if m ≠ buf.length then (.done (some ErrShortWrite), r.2, [.connWrite c buf])
          else (.done none, r.2, [.connWrite c buf])
    else (.done none, w, [])

/-! ## `httpppc.go` -/

/-- The struct `dialContextIntercepter`; `real` is `none` for a `nil` func value. -/
structure dialContextIntercepter where
  real : Option DialFn
  clientIP : IP
  clientPort : Int

/-- One activation of `DialContext`: what it returns (or that it panicked), the
world afterwards, and the events of this activation. -/
structure Run where
  out : Outcome
  world : World
  trace : List Event

/-- Lines 75-106 of `DialContext`: from the text of the connection's remote
address to the header, or the `errors.New` value returned for a malformed
address. -/
def buildHeader (di : dialContextIntercepter) (remoteAddr : GoString) : Except GoError Header :=
  match SplitHostPort remoteAddr with
  | none =>
    .error (errorsNew ("DialContext returned malformed addr '".toList ++ remoteAddr ++ "'".toList))
  | some (host, portStr) =>
    match Atoi portStr with
    | none =>
      .error (errorsNew ("DialContext returned malformed addr '".toList ++ remoteAddr ++
        "' port '".toList ++ portStr ++ "'".toList))
    | some port =>
      match ParseIP host with
      | none =>
        .error (errorsNew ("DialContext returned malformed addr '".toList ++ remoteAddr ++
          "' host '".toList ++ host ++ "'".toList))
      | some ip =>
        -- convert to 4 if it was a 6-formatted 4
        let ip := match To4 ip with
          | some ip4 => ip4
          | none => ip
        .ok { Version := 1
              Command := .PROXY
              TransportProtocol := .TCPv4
              SourceAddr := { ip := di.clientIP, Port := di.clientPort }
              DestinationAddr := { ip := ip, Port := port } }

/-- The method `(*dialContextIntercepter).DialContext`. -/
def DialContext (di : dialContextIntercepter) (ctx : Context) (network addr : GoString)
    (w : World) : Run :=
  match di.real with
  | none => ⟨.panic, w, []⟩                         -- call of a nil func value
  | some real =>
    let r := real ctx network addr w
    let called := [Event.callReal ctx network addr]
    match r.1 with
    | .panic => ⟨.panic, r.2, called⟩
    | .ret conn (some err) => ⟨.ret conn (some err), r.2, called⟩
    | .ret none none => ⟨.panic, r.2, called⟩       -- method call on a nil net.Conn
    | .ret (some conn) none =>
      match (r.2.conns conn).remoteAddr with
      | none =>
        ⟨.ret (some conn) (some (errorsNew "DialContext didn't know its remote".toList)), r.2, called⟩
      | some remoteAddr =>
        match buildHeader di remoteAddr with
        | .error e => ⟨.ret (some conn) (some e), r.2, called⟩
        | .ok header =>
          let wr := WriteTo header conn r.2
          let events := called ++ Event.buildHeader header :: wr.2.2
          match wr.1 with
          | .panic => ⟨.panic, wr.2.1, events⟩
          | .done (some err) =>
            ⟨.ret (some conn)
                (some (errorsNew ("writing Proxy Protocol header: ".toList ++ err.Error))),
              wr.2.1, events⟩
          | .done none => ⟨.ret (some conn) none, wr.2.1, events⟩

/-- The interceptor's `DialContext` method as a func value. -/
def dialContextIntercepter.asDialFn (di : dialContextIntercepter) : DialFn :=
  fun ctx network addr w => ((DialContext di ctx network addr w).out, (DialContext di ctx network addr w).world)

/-- One second as a `time.Duration` (nanoseconds). -/
def Second : Nat := 1000000000

/-- The fields of `net.Dialer` that `New` sets. -/
structure Dialer where
  Timeout : Nat
  KeepAlive : Nat
  deriving DecidableEq, Repr

/-- The fields of `http.Transport` that `New` reads or sets; `DialContext` is
`none` for an unset (`nil`) field. -/
structure Transport where
  ProxyFromEnvironment : Bool
  DialContext : Option DialFn
  ForceAttemptHTTP2 : Bool
  MaxIdleConns : Int
  IdleConnTimeout : Nat
  TLSHandshakeTimeout : Nat
  ExpectContinueTimeout : Nat

/-- The zero value `http.Transport{}`. -/
def zeroTransport : Transport :=
  { ProxyFromEnvironment := false, DialContext := none, ForceAttemptHTTP2 := false,
    MaxIdleConns := 0, IdleConnTimeout := 0, TLSHandshakeTimeout := 0,
    ExpectContinueTimeout := 0 }

/-- The heap of `http.Transport` values: a `*http.Transport` is an index into
`cell`, `next` is the first unused index. -/
structure Heap where
  cell : Nat → Transport
  next : Nat

/-- The struct `transport`; `real` is the wrapped `*http.Transport`. -/
structure transport where
  real : Nat
  deriving DecidableEq, Repr

/-- The function `New`.  `netDial d` is the method value `d.DialContext` of the
`net.Dialer` `d`; `tr` is `none` for `nil`.  Returns the round-tripper and the
heap, in which the transport's `DialContext` field has been replaced. -/
def New (netDial : Dialer → DialFn) (clientIP : IP) (clientPort : Int) (tr : Option Nat)
    (h : Heap) : transport × Heap :=
  let a : Nat × Heap :=
    match tr with
    | none =>
      let dialer : Dialer := { Timeout := 30 * Second, KeepAlive := 30 * Second }
      let tr0 : Transport :=
        { ProxyFromEnvironment := true
          DialContext := some (netDial dialer)
          ForceAttemptHTTP2 := true
          MaxIdleConns := 100
          IdleConnTimeout := 90 * Second
          TLSHandshakeTimeout := 10 * Second
          ExpectContinueTimeout := 1 * Second }
      (h.next, { cell := Function.update h.cell h.next tr0, next := h.next + 1 })
    | some p => (p, h)
  let tr := a.1
  let dci : dialContextIntercepter :=
    { real := (a.2.cell tr).DialContext, clientIP := clientIP, clientPort := clientPort }
  let tr1 : Transport := { a.2.cell tr with DialContext := some dci.asDialFn }
  ({ real := tr }, { a.2 with cell := Function.update a.2.cell tr tr1 })

/-- The dial function the round-tripper's `RoundTrip` reaches: `RoundTrip`
delegates to the wrapped `*http.Transport`, which dials new connections through
its `DialContext` field. -/
def transport.dial (rt : transport) (h : Heap) : Option DialFn := (h.cell rt.real).DialContext

/-- Successive calls `New(ip, port, tr)` on the same transport `tr`, in list order. -/
def applyNew (netDial : Dialer → DialFn) (tr : Nat) : List (IP × Int) → Heap → Heap
  | [], h => h
  | cfg :: rest, h => applyNew netDial tr rest (New netDial cfg.1 cfg.2 (some tr) h).2

/-- Whether an event is a call of the wrapped dial. -/
def Event.isCallReal : Event → Bool
  | .callReal _ _ _ => true
  | _ => false

/-- Whether an event is the construction of a header. -/
def Event.isBuildHeader : Event → Bool
  | .buildHeader _ => true
  | _ => false

/-- Whether an event is a `Write` call on a connection. -/
def Event.isConnWrite : Event → Bool
  | .connWrite _ _ => true
  | _ => false

/-! ## Concrete environments used to evaluate the code -/

/-- A connection behaviour that accepts every `Write` in full. -/
def acceptAll : GoString → GoString → Nat × Option GoError := fun _ p => (p.length, none)

/-- A connection behaviour whose every `Write` accepts nothing and fails with `e`. -/
def rejectAll (e : GoError) : GoString → GoString → Nat × Option GoError := fun _ _ => (0, some e)

/-- A freshly established connection: nothing written, not closed. -/
def freshConn (remoteAddr : Option GoString) (respond : GoString → GoString → Nat × Option GoError) :
    ConnState :=
  { remoteAddr := remoteAddr, respond := respond, wire := [], writeCalls := [], closed := false }

/-- A world in which no connection has been used yet. -/
def world0 : World := { conns := fun _ => freshConn none acceptAll, env := 0 }

/-- A dial function that succeeds with connection `0`, freshly established to the
remote address `remoteAddr` (`none`: the connection reports no remote address). -/
def dialTo (remoteAddr : Option GoString) (respond : GoString → GoString → Nat × Option GoError) :
    DialFn :=
  fun _ _ _ w => (.ret (some 0) none,
    { w with conns := Function.update w.conns 0 (freshConn remoteAddr respond) })

/-- A dial function that fails with error `e` and no connection. -/
def dialFails (e : GoError) : DialFn := fun _ _ _ w => (.ret none (some e), w)

/-- The client-facing address of the repository's test, `net.ParseIP("192.0.2.42")`. -/
def testClientIP : IP := IPv4 192 0 2 42

/-- A heap whose cell `0` is a caller-supplied transport dialing with `real`. -/
def heapWith (real : Option DialFn) : Heap :=
  { cell := fun _ => { zeroTransport with DialContext := real }, next := 1 }

/-- A `net.Dialer` method value for the evaluations below: it ignores the
dialer's settings and connects to `127.0.0.1:8080`. -/
def localDial : Dialer → DialFn := fun _ => dialTo (some "127.0.0.1:8080".toList) acceptAll

/-- The context, network and address of the evaluations below. -/
def ctx0 : Context := ⟨0⟩

/-- The network name `tcp`. -/
def tcp : GoString := "tcp".toList

/-- The address the repository's test requests. -/
def target : GoString := "localhost:8080".toList

/-- The interceptor of the repository's test, `192.0.2.42:31337`, over a given dial. -/
def testInterceptor (real : DialFn) : dialContextIntercepter :=
  { real := some real, clientIP := testClientIP, clientPort := 31337 }

/-- The header `DialContext` builds (lines 94-106) for source `src:sp` and
destination `dst:dp`. -/
def proxyHeader (src : IP) (sp : Int) (dst : IP) (dp : Int) : Header :=
  { Version := 1
    Command := .PROXY
    TransportProtocol := .TCPv4
    SourceAddr := { ip := src, Port := sp }
    DestinationAddr := { ip := dst, Port := dp } }

/-- The heap after `New(192.0.2.1, 1111, tr)` and then `New(192.0.2.2, 2222, tr)`
on one caller-supplied transport `tr` (cell `0`) that dials `127.0.0.1:8080`. -/
def heapTwice : Heap :=
  applyNew localDial 0 [(IPv4 192 0 2 1, 1111), (IPv4 192 0 2 2, 2222)]
    (heapWith (some (localDial { Timeout := 0, KeepAlive := 0 })))

/-- The round-tripper returned by the first of the two `New` calls of `heapTwice`. -/
def firstRoundTripper : transport :=
  (New localDial (IPv4 192 0 2 1) 1111 (some 0)
    (heapWith (some (localDial { Timeout := 0, KeepAlive := 0 })))).1

/-- The round-tripper returned by the second of the two `New` calls of `heapTwice`. -/
def secondRoundTripper : transport :=
  (New localDial (IPv4 192 0 2 2) 2222 (some 0)
    (New localDial (IPv4 192 0 2 1) 1111 (some 0)
      (heapWith (some (localDial { Timeout := 0, KeepAlive := 0 })))).2).1

/-! ## Lemmas about the library functions -/

theorem To4_length {ip p : IP} (h : To4 ip = some p) : p.length = 4 := by
  unfold To4 at h
  split at h
  · cases h; assumption
  · split at h
    · rename_i h2
      cases h
      simp [h2.1]
    · cases h

theorem To4_of_length {p : IP} (h : p.length = 4) : To4 p = some p := by
  simp [To4, h]

theorem To4_idem {ip p : IP} (h : To4 ip = some p) : To4 p = some p :=
  To4_of_length (To4_length h)

theorem IP_String_of_To4 {ip p : IP} (h : To4 ip = some p) : IP.String ip = dotted p := by
  have hl : ip.length = 4 ∨ ip.length = 16 := by
    unfold To4 at h
    split at h
    · left; assumption
    · split at h
      · rename_i h2; right; exact h2.1
      · cases h
  unfold IP.String
  rcases hl with hl | hl <;> simp [hl, h]

theorem IP_String_To4_eq {ip p : IP} (h : To4 ip = some p) : IP.String p = IP.String ip := by
  rw [IP_String_of_To4 h, IP_String_of_To4 (To4_idem h)]

theorem To4_IPv4 (a b c d : UInt8) : To4 (IPv4 a b c d) = some [a, b, c, d] := by
  simp [To4, IPv4, v4InV6Prefix]

theorem v1Line_length_pos (proto : GoString) (src dst : IP) (sp dp : Int) :
    0 < (v1Line proto src dst sp dp).length := by
  simp [v1Line]

theorem Format_ok_length_pos {h : Header} {buf : GoString} (hf : Format h = .ok buf) :
    0 < buf.length := by
  unfold Format at hf
  split at hf
  · unfold formatVersion1 at hf
    split at hf
    · split at hf
      · cases hf; exact v1Line_length_pos _ _ _ _ _
      · cases hf
    · split at hf
      · cases hf; exact v1Line_length_pos _ _ _ _ _
      · cases hf
    · cases hf; decide
  · cases hf

/-! ## Stepping through `DialContext` -/

theorem DialContext_nil_real (clientIP : IP) (clientPort : Int) (ctx : Context)
    (network addr : GoString) (w : World) :
    DialContext ⟨none, clientIP, clientPort⟩ ctx network addr w = ⟨.panic, w, []⟩ := rfl

theorem DialContext_dial_error {real : DialFn} {clientIP : IP} {clientPort : Int} {ctx : Context}
    {network addr : GoString} {w w1 : World} {conn : Option Nat} {e : GoError}
    (hdial : real ctx network addr w = (.ret conn (some e), w1)) :
    DialContext ⟨some real, clientIP, clientPort⟩ ctx network addr w =
      ⟨.ret conn (some e), w1, [.callReal ctx network addr]⟩ := by
  simp [DialContext, hdial]

theorem DialContext_no_remote {real : DialFn} {clientIP : IP} {clientPort : Int} {ctx : Context}
    {network addr : GoString} {w w1 : World} {c : Nat}
    (hdial : real ctx network addr w = (.ret (some c) none, w1))
    (hra : (w1.conns c).remoteAddr = none) :
    DialContext ⟨some real, clientIP, clientPort⟩ ctx network addr w =
      ⟨.ret (some c) (some (errorsNew "DialContext didn't know its remote".toList)), w1,
        [.callReal ctx network addr]⟩ := by
  simp [DialContext, hdial, hra]

theorem DialContext_bad_addr {real : DialFn} {clientIP : IP} {clientPort : Int} {ctx : Context}
    {network addr : GoString} {w w1 : World} {c : Nat} {ra : GoString} {e : GoError}
    (hdial : real ctx network addr w = (.ret (some c) none, w1))
    (hra : (w1.conns c).remoteAddr = some ra)
    (hhdr : buildHeader ⟨some real, clientIP, clientPort⟩ ra = .error e) :
    DialContext ⟨some real, clientIP, clientPort⟩ ctx network addr w =
      ⟨.ret (some c) (some e), w1, [.callReal ctx network addr]⟩ := by
  simp [DialContext, hdial, hra, hhdr]

theorem DialContext_header {real : DialFn} {clientIP : IP} {clientPort : Int} {ctx : Context}
    {network addr : GoString} {w w1 : World} {c : Nat} {ra : GoString} {h : Header}
    (hdial : real ctx network addr w = (.ret (some c) none, w1))
    (hra : (w1.conns c).remoteAddr = some ra)
    (hhdr : buildHeader ⟨some real, clientIP, clientPort⟩ ra = .ok h) :
    DialContext ⟨some real, clientIP, clientPort⟩ ctx network addr w =
      match (WriteTo h c w1).1 with
      | .panic =>
        ⟨.panic, (WriteTo h c w1).2.1,
          [.callReal ctx network addr] ++ .buildHeader h :: (WriteTo h c w1).2.2⟩
      | .done (some err) =>
        ⟨.ret (some c) (some (errorsNew ("writing Proxy Protocol header: ".toList ++ err.Error))),
          (WriteTo h c w1).2.1,
          [.callReal ctx network addr] ++ .buildHeader h :: (WriteTo h c w1).2.2⟩
      | .done none =>
        ⟨.ret (some c) none, (WriteTo h c w1).2.1,
          [.callReal ctx network addr] ++ .buildHeader h :: (WriteTo h c w1).2.2⟩ := by
  simp [DialContext, hdial, hra, hhdr]

theorem WriteTo_format_error {h : Header} {e : GoError} (c : Nat) (w : World)
    (hf : Format h = .error e) : WriteTo h c w = (.done (some e), w, []) := by
  simp [WriteTo, hf]

theorem connWrite_fst (c : Nat) (p : GoString) (w : World) :
    (connWrite c p w).1 = (w.conns c).respond (w.conns c).wire p := rfl

theorem connWrite_conns_same (c : Nat) (p : GoString) (w : World) :
    ((connWrite c p w).2.conns c).wire =
        (w.conns c).wire ++ p.take ((w.conns c).respond (w.conns c).wire p).1 ∧
      ((connWrite c p w).2.conns c).writeCalls = (w.conns c).writeCalls ++ [p] ∧
      ((connWrite c p w).2.conns c).remoteAddr = (w.conns c).remoteAddr ∧
      ((connWrite c p w).2.conns c).respond = (w.conns c).respond := by
  simp [connWrite]

theorem connWrite_closed (c : Nat) (p : GoString) (w : World) (k : Nat) :
    ((connWrite c p w).2.conns k).closed = (w.conns k).closed := by
  by_cases hk : k = c
  · subst hk; simp [connWrite]
  · simp [connWrite, Function.update, hk]

theorem connWrite_other (c : Nat) (p : GoString) (w : World) (k : Nat) (hk : k ≠ c) :
    (connWrite c p w).2.conns k = w.conns k := by
  simp [connWrite, Function.update, hk]

theorem connWrite_env (c : Nat) (p : GoString) (w : World) : (connWrite c p w).2.env = w.env := rfl

theorem WriteTo_ok {h : Header} {buf : GoString} (c : Nat) (w : World)
    (hf : Format h = .ok buf) :
    WriteTo h c w =
      if ((w.conns c).respond (w.conns c).wire buf).1 > buf.length then
        (.panic, (connWrite c buf w).2, [.connWrite c buf])
      else
        match ((w.conns c).respond (w.conns c).wire buf).2 with
        | some e => (.done (some e), (connWrite c buf w).2, [.connWrite c buf])
        | none =>
          if ((w.conns c).respond (w.conns c).wire buf).1 ≠ buf.length then
            (.done (some ErrShortWrite), (connWrite c buf w).2, [.connWrite c buf])
          else (.done none, (connWrite c buf w).2, [.connWrite c buf]) := by
  have hpos := Format_ok_length_pos hf
  simp only [WriteTo, hf, hpos, if_true, connWrite_fst]

theorem WriteTo_trace (h : Header) (c : Nat) (w : World) :
    ((WriteTo h c w).2.2 = [] ∧ (WriteTo h c w).2.1 = w ∧ ∃ e, Format h = .error e) ∨
      ∃ buf, Format h = .ok buf ∧ (WriteTo h c w).2.2 = [.connWrite c buf] ∧
        (WriteTo h c w).2.1 = (connWrite c buf w).2 := by
  cases hf : Format h with
  | error e => left; simp [WriteTo_format_error c w hf]
  | ok buf =>
    right
    refine ⟨buf, rfl, ?_⟩
    rw [WriteTo_ok c w hf]
    split
    · simp
    · split
      · simp
      · split <;> simp

theorem WriteTo_closed (h : Header) (c : Nat) (w : World) (k : Nat) :
    ((WriteTo h c w).2.1.conns k).closed = (w.conns k).closed := by
  rcases WriteTo_trace h c w with ⟨_, hw, _⟩ | ⟨buf, _, _, hw⟩
  · rw [hw]
  · rw [hw, connWrite_closed]

theorem buildHeader_ok_form {di : dialContextIntercepter} {ra : GoString} {h : Header}
    (hh : buildHeader di ra = .ok h) :
    ∃ host portStr port ip, SplitHostPort ra = some (host, portStr) ∧ Atoi portStr = some port ∧
      ParseIP host = some ip ∧
      h = proxyHeader di.clientIP di.clientPort ((To4 ip).getD ip) port := by
  unfold buildHeader at hh
  split at hh
  · cases hh
  · rename_i host portStr hs
    split at hh
    · cases hh
    · rename_i port hp
      split at hh
      · cases hh
      · rename_i ip hi
        refine ⟨host, portStr, port, ip, hs, hp, hi, ?_⟩
        cases hh
        cases To4 ip <;> rfl

theorem buildHeader_of_parse (di : dialContextIntercepter) {ra host portStr : GoString} {port : Int}
    {ip : IP} (hs : SplitHostPort ra = some (host, portStr)) (hp : Atoi portStr = some port)
    (hi : ParseIP host = some ip) :
    buildHeader di ra = .ok (proxyHeader di.clientIP di.clientPort ((To4 ip).getD ip) port) := by
  simp only [buildHeader, hs, hp, hi, proxyHeader]
  cases To4 ip <;> rfl

theorem Format_tcp4 (src dst : IP) (sp dp : Int) :
    Format (proxyHeader src sp dst dp) =
      match To4 src, To4 dst with
      | some s, some d => .ok (v1Line "TCP4".toList s d sp dp)
      | _, _ => .error ErrInvalidAddress := by
  simp [Format, formatVersion1, proxyHeader]

theorem DialContext_full_success {real : DialFn} {clientIP : IP} {clientPort : Int}
    {ctx : Context} {network addr : GoString} {w w1 : World} {c : Nat} {ra : GoString}
    {h : Header} {buf : GoString}
    (hdial : real ctx network addr w = (.ret (some c) none, w1))
    (hra : (w1.conns c).remoteAddr = some ra)
    (hhdr : buildHeader ⟨some real, clientIP, clientPort⟩ ra = .ok h)
    (hfmt : Format h = .ok buf)
    (hresp : (w1.conns c).respond (w1.conns c).wire buf = (buf.length, none)) :
    DialContext ⟨some real, clientIP, clientPort⟩ ctx network addr w =
      ⟨.ret (some c) none, (connWrite c buf w1).2,
        [.callReal ctx network addr, .buildHeader h, .connWrite c buf]⟩ := by
  rw [DialContext_header hdial hra hhdr, WriteTo_ok c w1 hfmt, hresp]
  simp

theorem DialContext_write_error {real : DialFn} {clientIP : IP} {clientPort : Int}
    {ctx : Context} {network addr : GoString} {w w1 : World} {c : Nat} {ra : GoString}
    {h : Header} {buf : GoString} {n : Nat} {e : GoError}
    (hdial : real ctx network addr w = (.ret (some c) none, w1))
    (hra : (w1.conns c).remoteAddr = some ra)
    (hhdr : buildHeader ⟨some real, clientIP, clientPort⟩ ra = .ok h)
    (hfmt : Format h = .ok buf)
    (hresp : (w1.conns c).respond (w1.conns c).wire buf = (n, some e))
    (hn : n ≤ buf.length) :
    DialContext ⟨some real, clientIP, clientPort⟩ ctx network addr w =
      ⟨.ret (some c) (some (errorsNew ("writing Proxy Protocol header: ".toList ++ e.Error))),
        (connWrite c buf w1).2,
        [.callReal ctx network addr, .buildHeader h, .connWrite c buf]⟩ := by
  rw [DialContext_header hdial hra hhdr, WriteTo_ok c w1 hfmt, hresp]
  simp [Nat.not_lt.mpr hn]

theorem DialContext_success_inv {real : DialFn} {clientIP : IP} {clientPort : Int}
    {ctx : Context} {network addr : GoString} {w : World} {conn : Option Nat}
    (hout : (DialContext ⟨some real, clientIP, clientPort⟩ ctx network addr w).out =
      .ret conn none) :
    ∃ c ra h buf, conn = some c ∧ (real ctx network addr w).1 = .ret (some c) none ∧
      ((real ctx network addr w).2.conns c).remoteAddr = some ra ∧
      buildHeader ⟨some real, clientIP, clientPort⟩ ra = .ok h ∧ Format h = .ok buf ∧
      ((real ctx network addr w).2.conns c).respond ((real ctx network addr w).2.conns c).wire buf =
        (buf.length, none) := by
  rcases hr : real ctx network addr w with ⟨o, w1⟩
  match o, hr with
  | .panic, hr => simp [DialContext, hr] at hout
  | .ret conn2 (some e), hr => simp [DialContext_dial_error hr] at hout
  | .ret none none, hr => simp [DialContext, hr] at hout
  | .ret (some c) none, hr =>
    cases hra : (w1.conns c).remoteAddr with
    | none => simp [DialContext_no_remote hr hra] at hout
    | some ra =>
      cases hh : buildHeader ⟨some real, clientIP, clientPort⟩ ra with
      | error e => simp [DialContext_bad_addr hr hra hh] at hout
      | ok h =>
        cases hf : Format h with
        | error e =>
          rw [DialContext_header hr hra hh, WriteTo_format_error c w1 hf] at hout
          simp at hout
        | ok buf =>
          rw [DialContext_header hr hra hh, WriteTo_ok c w1 hf] at hout
          rcases hresp : (w1.conns c).respond (w1.conns c).wire buf with ⟨n, oe⟩
          rw [hresp] at hout
          by_cases hgt : n > buf.length
          · simp [hgt] at hout
          · cases oe with
            | some e => simp [hgt] at hout
            | none =>
              by_cases hne : n = buf.length
              · subst hne
                simp at hout
                exact ⟨c, ra, h, buf, hout.symm, rfl, hra, hh, hf, hresp⟩
              · simp [hgt, hne] at hout

theorem DialContext_header_run {real : DialFn} {clientIP : IP} {clientPort : Int}
    {ctx : Context} {network addr : GoString} {w w1 : World} {c : Nat} {ra : GoString}
    {h : Header}
    (hdial : real ctx network addr w = (.ret (some c) none, w1))
    (hra : (w1.conns c).remoteAddr = some ra)
    (hhdr : buildHeader ⟨some real, clientIP, clientPort⟩ ra = .ok h) :
    (DialContext ⟨some real, clientIP, clientPort⟩ ctx network addr w).world =
        (WriteTo h c w1).2.1 ∧
      (DialContext ⟨some real, clientIP, clientPort⟩ ctx network addr w).trace =
        .callReal ctx network addr :: .buildHeader h :: (WriteTo h c w1).2.2 := by
  rw [DialContext_header hdial hra hhdr]
  split <;> simp

theorem v1Line_To4 (proto : GoString) {src dst s d : IP} (sp dp : Int)
    (hs : To4 src = some s) (hd : To4 dst = some d) :
    v1Line proto s d sp dp = v1Line proto src dst sp dp := by
  simp only [v1Line, IP_String_To4_eq hs, IP_String_To4_eq hd]

theorem To4_getD_idem (ip : IP) {d : IP} (h : To4 ((To4 ip).getD ip) = some d) :
    To4 ip = some d := by
  cases h4 : To4 ip with
  | none => rw [h4] at h; simp at h; rw [h4] at h; cases h
  | some x =>
    rw [h4] at h
    simp at h
    rw [To4_idem h4] at h
    exact h

theorem WriteTo_no_panic (h : Header) (c : Nat) (w : World)
    (hcontract : ∀ wire p, ((w.conns c).respond wire p).1 ≤ p.length) :
    ∃ e, (WriteTo h c w).1 = .done e := by
  cases hf : Format h with
  | error e => exact ⟨some e, by rw [WriteTo_format_error c w hf]⟩
  | ok buf =>
    rw [WriteTo_ok c w hf]
    have hle := hcontract (w.conns c).wire buf
    rw [if_neg (Nat.not_lt.mpr hle)]
    split
    · exact ⟨_, rfl⟩
    · split <;> exact ⟨_, rfl⟩

theorem DialContext_world_closed {real : DialFn} {clientIP : IP} {clientPort : Int}
    {ctx : Context} {network addr : GoString} {w w1 : World} {c : Nat}
    (hdial : real ctx network addr w = (.ret (some c) none, w1)) (k : Nat) :
    ((DialContext ⟨some real, clientIP, clientPort⟩ ctx network addr w).world.conns k).closed =
      (w1.conns k).closed := by
  cases hra : (w1.conns c).remoteAddr with
  | none => rw [DialContext_no_remote hdial hra]
  | some ra =>
    cases hh : buildHeader ⟨some real, clientIP, clientPort⟩ ra with
    | error e => rw [DialContext_bad_addr hdial hra hh]
    | ok h => rw [(DialContext_header_run hdial hra hh).1, WriteTo_closed]

theorem DialContext_returns_conn {real : DialFn} {clientIP : IP} {clientPort : Int}
    {ctx : Context} {network addr : GoString} {w w1 : World} {c : Nat}
    (hdial : real ctx network addr w = (.ret (some c) none, w1))
    (hcontract : ∀ wire p, ((w1.conns c).respond wire p).1 ≤ p.length) :
    ∃ err, (DialContext ⟨some real, clientIP, clientPort⟩ ctx network addr w).out =
      .ret (some c) err := by
  cases hra : (w1.conns c).remoteAddr with
  | none => exact ⟨_, by rw [DialContext_no_remote hdial hra]⟩
  | some ra =>
    cases hh : buildHeader ⟨some real, clientIP, clientPort⟩ ra with
    | error e => exact ⟨_, by rw [DialContext_bad_addr hdial hra hh]⟩
    | ok h =>
      obtain ⟨e, he⟩ := WriteTo_no_panic h c w1 hcontract
      rw [DialContext_header hdial hra hh, he]
      cases e with
      | none => exact ⟨_, rfl⟩
      | some e => exact ⟨_, rfl⟩

theorem buildHeader_error_form {di : dialContextIntercepter} {ra : GoString} {e : GoError}
    (hh : buildHeader di ra = .error e) :
    ∃ detail : GoString,
      e = errorsNew ("DialContext returned malformed addr '".toList ++ ra ++ "'".toList ++ detail) := by
  unfold buildHeader at hh
  split at hh
  · cases hh; exact ⟨[], by simp⟩
  · rename_i host portStr hs
    split at hh
    · cases hh
      exact ⟨" port '".toList ++ portStr ++ "'".toList, by simp [errorsNew]⟩
    · split at hh
      · cases hh
        exact ⟨" host '".toList ++ host ++ "'".toList, by simp [errorsNew]⟩
      · cases hh

theorem buildHeader_malformed {di : dialContextIntercepter} {ra : GoString}
    (hbad : SplitHostPort ra = none ∨ ∃ host portStr, SplitHostPort ra = some (host, portStr) ∧
      (Atoi portStr = none ∨ ParseIP host = none)) :
    ∃ e, buildHeader di ra = .error e := by
  rcases hbad with hs | ⟨host, portStr, hs, hp | hi⟩
  · simp only [buildHeader, hs]; exact ⟨_, rfl⟩
  · simp only [buildHeader, hs, hp]; exact ⟨_, rfl⟩
  · cases hp : Atoi portStr with
    | none => simp only [buildHeader, hs, hp]; exact ⟨_, rfl⟩
    | some port => simp only [buildHeader, hs, hp, hi]; exact ⟨_, rfl⟩

theorem New_supplied (netDial : Dialer → DialFn) (clientIP : IP) (clientPort : Int) (tr : Nat)
    (h : Heap) :
    (New netDial clientIP clientPort (some tr) h).1 = { real := tr } ∧
      ((New netDial clientIP clientPort (some tr) h).2.cell tr).DialContext =
        some (dialContextIntercepter.asDialFn
          { real := (h.cell tr).DialContext, clientIP := clientIP, clientPort := clientPort }) := by
  simp [New]

theorem Format_proxyHeader_ok {src dst : IP} {sp dp : Int} {buf : GoString}
    (hf : Format (proxyHeader src sp ((To4 dst).getD dst) dp) = .ok buf) :
    buf = v1Line "TCP4".toList src dst sp dp := by
  rw [Format_tcp4] at hf
  cases hs : To4 src with
  | none => simp [hs] at hf
  | some s4 =>
    cases hd : To4 ((To4 dst).getD dst) with
    | none => simp [hs, hd] at hf
    | some d4 =>
      simp only [hs, hd] at hf
      cases hf
      exact v1Line_To4 "TCP4".toList sp dp hs (To4_getD_idem dst hd)

/-! ## The claims -/

/-- C4: `DialContext` calls the wrapped real dial exactly once, with the context,
network and address it was given, and its result depends on the wrapped dial only
through that one call; when the real dial returns a non-nil error, `DialContext`
returns the same connection and the same error value, leaves the world as the
real dial left it, and does nothing else (no header built, no `Write`). -/
theorem DialContext_calls_real_once_and_passes_dial_error (real : DialFn) (clientIP : IP)
    (clientPort : Int) (ctx : Context) (network addr : GoString) (w : World) :
    (DialContext ⟨some real, clientIP, clientPort⟩ ctx network addr w).trace.filter
        Event.isCallReal = [.callReal ctx network addr] ∧
    (∀ real2 : DialFn, real2 ctx network addr w = real ctx network addr w →
        DialContext ⟨some real2, clientIP, clientPort⟩ ctx network addr w =
          DialContext ⟨some real, clientIP, clientPort⟩ ctx network addr w) ∧
    (∀ conn e w1, real ctx network addr w = (.ret conn (some e), w1) →
        DialContext ⟨some real, clientIP, clientPort⟩ ctx network addr w =
          ⟨.ret conn (some e), w1, [.callReal ctx network addr]⟩) := by
  refine ⟨?_, ?_, ?_⟩
  · rcases hr : real ctx network addr w with ⟨o, w1⟩
    match o, hr with
    | .panic, hr => simp [DialContext, hr, Event.isCallReal]
    | .ret conn (some e), hr => simp [DialContext_dial_error hr, Event.isCallReal]
    | .ret none none, hr => simp [DialContext, hr, Event.isCallReal]
    | .ret (some c) none, hr =>
      cases hra : (w1.conns c).remoteAddr with
      | none => simp [DialContext_no_remote hr hra, Event.isCallReal]
      | some ra =>
        cases hh : buildHeader ⟨some real, clientIP, clientPort⟩ ra with
        | error e => simp [DialContext_bad_addr hr hra hh, Event.isCallReal]
        | ok h =>
          rw [DialContext_header hr hra hh]
          rcases WriteTo_trace h c w1 with ⟨ht, _, _⟩ | ⟨buf, _, ht, _⟩ <;>
            split <;> simp [ht, Event.isCallReal]
  · intro real2 h2
    simp only [DialContext, h2, buildHeader]
  · intro conn e w1 hr
    exact DialContext_dial_error hr

/-- Witness for C4: a dial that fails with "connection refused" and no connection. -/
theorem DialContext_calls_real_once_and_passes_dial_error_witness :
    dialFails (.foreign 7 "connection refused".toList) ⟨0⟩ "tcp".toList "localhost:8080".toList world0 =
        (.ret none (some (.foreign 7 "connection refused".toList)), world0) ∧
      DialContext ⟨some (dialFails (.foreign 7 "connection refused".toList)), testClientIP, 31337⟩
          ⟨0⟩ "tcp".toList "localhost:8080".toList world0 =
        ⟨.ret none (some (.foreign 7 "connection refused".toList)), world0,
          [.callReal ⟨0⟩ "tcp".toList "localhost:8080".toList]⟩ :=
  ⟨rfl, (DialContext_calls_real_once_and_passes_dial_error _ testClientIP 31337 ⟨0⟩ "tcp".toList
    "localhost:8080".toList world0).2.2 none _ world0 rfl⟩

/-- C1: when the real dial succeeds with connection `c`, the connection's remote
address splits and parses to IP `d` and port `q`, and `DialContext` returns a nil
error (the write succeeded), the bytes the call put on the connection are exactly
the one line `PROXY TCP4 <clientIP> <d> <clientPort> <q>` + CRLF, handed to the
connection in a single `Write`. -/
theorem DialContext_writes_proxy_line (real : DialFn) (clientIP : IP) (clientPort : Int)
    (ctx : Context) (network addr : GoString) (w w1 : World) (c : Nat)
    (ra host portStr : GoString) (d : IP) (q : Int)
    (hdial : real ctx network addr w = (.ret (some c) none, w1))
    (hra : (w1.conns c).remoteAddr = some ra)
    (hsplit : SplitHostPort ra = some (host, portStr))
    (hport : Atoi portStr = some q)
    (hip : ParseIP host = some d)
    (hok : (DialContext ⟨some real, clientIP, clientPort⟩ ctx network addr w).out =
      .ret (some c) none) :
    ((DialContext ⟨some real, clientIP, clientPort⟩ ctx network addr w).world.conns c).wire =
        (w1.conns c).wire ++ v1Line "TCP4".toList clientIP d clientPort q ∧
      (DialContext ⟨some real, clientIP, clientPort⟩ ctx network addr w).trace.filter
        Event.isConnWrite = [.connWrite c (v1Line "TCP4".toList clientIP d clientPort q)] := by
  obtain ⟨c2, ra2, h, buf, hc, hr1, hra2, hh, hf, hresp⟩ := DialContext_success_inv hok
  rw [hdial] at hr1 hra2 hresp
  cases hc
  rw [hra] at hra2
  cases hra2
  rw [buildHeader_of_parse _ hsplit hport hip] at hh
  cases hh
  rw [Format_tcp4] at hf
  cases hs : To4 clientIP with
  | none => simp [hs] at hf
  | some s4 =>
    cases hd : To4 ((To4 d).getD d) with
    | none => simp [hs, hd] at hf
    | some d4 =>
      simp only [hs, hd] at hf
      cases hf
      have hbuf := v1Line_To4 "TCP4".toList clientPort q hs (To4_getD_idem d hd)
      rw [hbuf] at hresp
      have hfmt : Format (proxyHeader clientIP clientPort ((To4 d).getD d) q) =
          .ok (v1Line "TCP4".toList clientIP d clientPort q) := by
        rw [Format_tcp4]; simp only [hs, hd, hbuf]
      rw [DialContext_full_success hdial hra (buildHeader_of_parse _ hsplit hport hip) hfmt hresp]
      refine ⟨?_, ?_⟩
      · rw [(connWrite_conns_same c _ w1).1, hresp]
        simp
      · simp [Event.isConnWrite]

/-- Witness for C1: the repository's test scenario, client endpoint
`192.0.2.42:31337` and remote address `127.0.0.1:8080`; the bytes on the wire are
`PROXY TCP4 192.0.2.42 127.0.0.1 31337 8080` + CRLF. -/
theorem DialContext_writes_proxy_line_witness :
    ((DialContext (testInterceptor (dialTo (some "127.0.0.1:8080".toList) acceptAll)) ctx0 tcp
        target world0).world.conns 0).wire =
      "PROXY TCP4 192.0.2.42 127.0.0.1 31337 8080\r\n".toList :=
  (DialContext_writes_proxy_line (dialTo (some "127.0.0.1:8080".toList) acceptAll) testClientIP
    31337 ctx0 tcp target world0
    (dialTo (some "127.0.0.1:8080".toList) acceptAll ctx0 tcp target world0).2 0
    "127.0.0.1:8080".toList "127.0.0.1".toList "8080".toList (IPv4 127 0 0 1) 8080
    rfl rfl (by decide) (by decide) (by decide) (by decide)).1.trans (by decide)

/-- C2: when the host of the connection's remote address denotes an IPv4 address
`a.b.c.d` in IPv4-mapped IPv6 form, the header `DialContext` builds declares
`TCPv4` and carries the 4-byte address as destination.  With `line` the text
`PROXY TCP4 <clientIP> a.b.c.d <clientPort> <q>` + CRLF: when the client address
has a 4-byte form the call hands exactly `line` to the connection in one `Write`,
the bytes reaching the wire are the part of `line` the connection accepted, and
when the connection accepts all of it the call returns the connection with a nil
error and the wire has grown by exactly `line`; when the client address has no
4-byte form nothing is written and the header-write error is returned. -/
theorem DialContext_mapped_destination_is_TCP4 (real : DialFn) (clientIP : IP) (clientPort : Int)
    (ctx : Context) (network addr : GoString) (w w1 : World) (c : Nat)
    (ra host portStr : GoString) (a b c4 d4 : UInt8) (q : Int)
    (hdial : real ctx network addr w = (.ret (some c) none, w1))
    (hra : (w1.conns c).remoteAddr = some ra)
    (hsplit : SplitHostPort ra = some (host, portStr))
    (hport : Atoi portStr = some q)
    (hip : ParseIP host = some (IPv4 a b c4 d4)) :
    buildHeader ⟨some real, clientIP, clientPort⟩ ra =
        .ok (proxyHeader clientIP clientPort [a, b, c4, d4] q) ∧
      (proxyHeader clientIP clientPort [a, b, c4, d4] q).TransportProtocol = .TCPv4 ∧
      Event.buildHeader (proxyHeader clientIP clientPort [a, b, c4, d4] q) ∈
        (DialContext ⟨some real, clientIP, clientPort⟩ ctx network addr w).trace ∧
      ∃ line : GoString,
        line = "PROXY".toList ++ ' ' :: "TCP4".toList ++ ' ' :: IP.String clientIP ++
          ' ' :: dotted [a, b, c4, d4] ++ ' ' :: Itoa clientPort ++ ' ' :: Itoa q ++
          ['\r', '\n'] ∧
        (∀ k p, Event.connWrite k p ∈
            (DialContext ⟨some real, clientIP, clientPort⟩ ctx network addr w).trace →
          k = c ∧ p = line) ∧
        (To4 clientIP ≠ none →
          Event.connWrite c line ∈
              (DialContext ⟨some real, clientIP, clientPort⟩ ctx network addr w).trace ∧
            ((DialContext ⟨some real, clientIP, clientPort⟩ ctx network addr w).world.conns
                c).writeCalls = (w1.conns c).writeCalls ++ [line] ∧
            ((DialContext ⟨some real, clientIP, clientPort⟩ ctx network addr w).world.conns
                c).wire =
              (w1.conns c).wire ++ line.take ((w1.conns c).respond (w1.conns c).wire line).1 ∧
            ((w1.conns c).respond (w1.conns c).wire line = (line.length, none) →
              (DialContext ⟨some real, clientIP, clientPort⟩ ctx network addr w).out =
                  .ret (some c) none ∧
                ((DialContext ⟨some real, clientIP, clientPort⟩ ctx network addr w).world.conns
                    c).wire = (w1.conns c).wire ++ line)) ∧
        (To4 clientIP = none →
          (DialContext ⟨some real, clientIP, clientPort⟩ ctx network addr w).world = w1 ∧
            (DialContext ⟨some real, clientIP, clientPort⟩ ctx network addr w).out =
              .ret (some c) (some (errorsNew
                ("writing Proxy Protocol header: ".toList ++ ErrInvalidAddress.Error)))) := by
  have hh : buildHeader ⟨some real, clientIP, clientPort⟩ ra =
      .ok (proxyHeader clientIP clientPort [a, b, c4, d4] q) := by
    rw [buildHeader_of_parse _ hsplit hport hip, To4_IPv4]; rfl
  have hrun := DialContext_header_run hdial hra hh
  have hd : To4 [a, b, c4, d4] = some [a, b, c4, d4] := To4_of_length rfl
  have hstr : IP.String [a, b, c4, d4] = dotted [a, b, c4, d4] := IP_String_of_To4 hd
  have hline : v1Line "TCP4".toList clientIP [a, b, c4, d4] clientPort q =
      "PROXY".toList ++ ' ' :: "TCP4".toList ++ ' ' :: IP.String clientIP ++
        ' ' :: dotted [a, b, c4, d4] ++ ' ' :: Itoa clientPort ++ ' ' :: Itoa q ++
        ['\r', '\n'] := by
    rw [v1Line, hstr]
  refine ⟨hh, rfl, ?_, v1Line "TCP4".toList clientIP [a, b, c4, d4] clientPort q, hline,
    ?_, ?_, ?_⟩
  · rw [hrun.2]; simp
  · intro k p hmem
    rw [hrun.2] at hmem
    rcases WriteTo_trace (proxyHeader clientIP clientPort [a, b, c4, d4] q) c w1 with
      ⟨ht, _, _⟩ | ⟨buf, hf, ht, _⟩
    · simp [ht] at hmem
    · rw [ht] at hmem
      simp at hmem
      rw [Format_tcp4, hd] at hf
      cases hs : To4 clientIP with
      | none => simp [hs] at hf
      | some s4 =>
        simp only [hs] at hf
        cases hf
        refine ⟨hmem.1, ?_⟩
        rw [hmem.2, v1Line_To4 "TCP4".toList clientPort q hs hd]
  · intro hne
    obtain ⟨s4, hs⟩ := Option.ne_none_iff_exists'.mp hne
    have hf : Format (proxyHeader clientIP clientPort [a, b, c4, d4] q) =
        .ok (v1Line "TCP4".toList clientIP [a, b, c4, d4] clientPort q) := by
      rw [Format_tcp4, hd]; simp only [hs, v1Line_To4 "TCP4".toList clientPort q hs hd]
    rcases WriteTo_trace (proxyHeader clientIP clientPort [a, b, c4, d4] q) c w1 with
      ⟨_, _, e, he⟩ | ⟨buf, hf2, ht, hw⟩
    · rw [hf] at he; cases he
    · rw [hf] at hf2
      cases hf2
      have hsame := connWrite_conns_same c
        (v1Line "TCP4".toList clientIP [a, b, c4, d4] clientPort q) w1
      refine ⟨?_, ?_, ?_, ?_⟩
      · rw [hrun.2, ht]; simp
      · rw [hrun.1, hw]; exact hsame.2.1
      · rw [hrun.1, hw]; exact hsame.1
      · intro hresp
        rw [DialContext_full_success hdial hra hh hf hresp]
        refine ⟨rfl, ?_⟩
        rw [hsame.1, hresp]
        simp
  · intro hs
    have hf : Format (proxyHeader clientIP clientPort [a, b, c4, d4] q) =
        .error ErrInvalidAddress := by
      rw [Format_tcp4, hs]
    rw [DialContext_header hdial hra hh, WriteTo_format_error c w1 hf]
    exact ⟨rfl, rfl⟩

/-- Witness for C2: remote address `[::ffff:198.51.100.7]:443` on a connection that
accepts every write; the call returns a nil error and the bytes on the wire are
`PROXY TCP4 192.0.2.42 198.51.100.7 31337 443` + CRLF, written in one `Write`. -/
theorem DialContext_mapped_destination_is_TCP4_witness :
    SplitHostPort "[::ffff:198.51.100.7]:443".toList =
        some ("::ffff:198.51.100.7".toList, "443".toList) ∧
      ParseIP "::ffff:198.51.100.7".toList = some (IPv4 198 51 100 7) ∧
      (DialContext (testInterceptor (dialTo (some "[::ffff:198.51.100.7]:443".toList) acceptAll))
          ctx0 tcp target world0).out = .ret (some 0) none ∧
      ((DialContext (testInterceptor (dialTo (some "[::ffff:198.51.100.7]:443".toList) acceptAll))
          ctx0 tcp target world0).world.conns 0).wire =
        [] ++ "PROXY TCP4 192.0.2.42 198.51.100.7 31337 443\r\n".toList ∧
      ((DialContext (testInterceptor (dialTo (some "[::ffff:198.51.100.7]:443".toList) acceptAll))
          ctx0 tcp target world0).world.conns 0).writeCalls =
        [] ++ ["PROXY TCP4 192.0.2.42 198.51.100.7 31337 443\r\n".toList] := by
  obtain ⟨_, _, _, line, hl, _, hw, _⟩ := DialContext_mapped_destination_is_TCP4
    (dialTo (some "[::ffff:198.51.100.7]:443".toList) acceptAll) testClientIP
    31337 ctx0 tcp target world0
    (dialTo (some "[::ffff:198.51.100.7]:443".toList) acceptAll ctx0 tcp target world0).2 0
    "[::ffff:198.51.100.7]:443".toList "::ffff:198.51.100.7".toList "443".toList 198 51 100 7 443
    rfl rfl (by decide) (by decide) (by decide)
  have hlit : line = "PROXY TCP4 192.0.2.42 198.51.100.7 31337 443\r\n".toList :=
    hl.trans (by decide)
  subst hlit
  obtain ⟨_, hcalls, _, hacc⟩ := hw (by decide)
  obtain ⟨hout, hwire⟩ := hacc rfl
  exact ⟨by decide, by decide, hout, hwire, hcalls⟩

/-- C3 (the code at the failing input): for the genuine IPv6 remote address
`[2001:db8::1]:8080` the header `DialContext` builds declares `TCPv4`, not
`TCPv6`, with the 16-byte address as destination; the encoder rejects it, so no
byte is written and the call returns the header-write error. -/
theorem DialContext_ipv6_destination_declares_TCPv4 :
    ParseIP "2001:db8::1".toList = some [0x20, 0x01, 0x0d, 0xb8, 0, 0, 0, 0, 0, 0, 0, 0, 0, 0, 0, 1] ∧
      To4 [0x20, 0x01, 0x0d, 0xb8, 0, 0, 0, 0, 0, 0, 0, 0, 0, 0, 0, 1] = none ∧
      DialContext (testInterceptor (dialTo (some "[2001:db8::1]:8080".toList) acceptAll))
          ctx0 tcp target world0 =
        ⟨.ret (some 0) (some (errorsNew
            "writing Proxy Protocol header: proxyproto: invalid address".toList)),
          (dialTo (some "[2001:db8::1]:8080".toList) acceptAll ctx0 tcp target world0).2,
          [.callReal ctx0 tcp target,
           .buildHeader
             { Version := 1
               Command := .PROXY
               TransportProtocol := .TCPv4
               SourceAddr := { ip := testClientIP, Port := 31337 }
               DestinationAddr :=
                 { ip := [0x20, 0x01, 0x0d, 0xb8, 0, 0, 0, 0, 0, 0, 0, 0, 0, 0, 0, 1], Port := 8080 } }]⟩ ∧
      ((DialContext (testInterceptor (dialTo (some "[2001:db8::1]:8080".toList) acceptAll))
          ctx0 tcp target world0).world.conns 0).wire = [] := by
  refine ⟨by decide, by decide, ?_, by decide⟩
  have hh : buildHeader (testInterceptor (dialTo (some "[2001:db8::1]:8080".toList) acceptAll))
      "[2001:db8::1]:8080".toList =
      .ok (proxyHeader testClientIP 31337 [0x20, 0x01, 0x0d, 0xb8, 0, 0, 0, 0, 0, 0, 0, 0, 0, 0, 0, 1]
        8080) :=
    @buildHeader_of_parse _ "[2001:db8::1]:8080".toList "2001:db8::1".toList "8080".toList 8080
      [0x20, 0x01, 0x0d, 0xb8, 0, 0, 0, 0, 0, 0, 0, 0, 0, 0, 0, 1]
      (by decide) (by decide) (by decide)
  have hf : Format (proxyHeader testClientIP 31337
      [0x20, 0x01, 0x0d, 0xb8, 0, 0, 0, 0, 0, 0, 0, 0, 0, 0, 0, 1] 8080) =
      .error ErrInvalidAddress := by
    rw [Format_tcp4]
    have h6 : To4 [0x20, 0x01, 0x0d, 0xb8, 0, 0, 0, 0, 0, 0, 0, 0, 0, 0, 0, 1] = none := by decide
    rw [h6]
    cases To4 testClientIP <;> rfl
  have hrun := @DialContext_header (dialTo (some "[2001:db8::1]:8080".toList) acceptAll)
    testClientIP 31337 ctx0 tcp target world0 _ 0 _ _ rfl rfl hh
  rw [WriteTo_format_error _ _ hf] at hrun
  exact hrun

/-- C5: when the real dial succeeds and the connection's remote address text is
malformed (it does not split into host and port, or the port is not numeric, or
the host is not an IP literal), `DialContext` returns the connection with a
non-nil `errors.New` error whose message is `DialContext returned malformed addr`
followed by the raw remote address in quotes (and possibly the offending part);
the world is as the real dial left it and the call built no header and made no
`Write`. -/
theorem DialContext_malformed_remote_address (real : DialFn) (clientIP : IP) (clientPort : Int)
    (ctx : Context) (network addr : GoString) (w w1 : World) (c : Nat) (ra : GoString)
    (hdial : real ctx network addr w = (.ret (some c) none, w1))
    (hra : (w1.conns c).remoteAddr = some ra)
    (hbad : SplitHostPort ra = none ∨ ∃ host portStr, SplitHostPort ra = some (host, portStr) ∧
      (Atoi portStr = none ∨ ParseIP host = none)) :
    ∃ detail : GoString,
      DialContext ⟨some real, clientIP, clientPort⟩ ctx network addr w =
        ⟨.ret (some c) (some (errorsNew
            ("DialContext returned malformed addr '".toList ++ ra ++ "'".toList ++ detail))),
          w1, [.callReal ctx network addr]⟩ := by
  obtain ⟨e, he⟩ := @buildHeader_malformed ⟨some real, clientIP, clientPort⟩ ra hbad
  obtain ⟨detail, hd⟩ := buildHeader_error_form he
  refine ⟨detail, ?_⟩
  rw [DialContext_bad_addr hdial hra he, hd]

/-- Witness for C5: the remote address `localhost:8080`, whose host is not an IP
literal. -/
theorem DialContext_malformed_remote_address_witness :
    (SplitHostPort "localhost:8080".toList = some ("localhost".toList, "8080".toList) ∧
        ParseIP "localhost".toList = none) ∧
      ∃ detail : GoString,
        DialContext (testInterceptor (dialTo (some "localhost:8080".toList) acceptAll)) ctx0 tcp
            target world0 =
          ⟨.ret (some 0) (some (errorsNew
              ("DialContext returned malformed addr '".toList ++ "localhost:8080".toList ++
                "'".toList ++ detail))),
            (dialTo (some "localhost:8080".toList) acceptAll ctx0 tcp target world0).2,
            [.callReal ctx0 tcp target]⟩ :=
  ⟨by decide,
    DialContext_malformed_remote_address (dialTo (some "localhost:8080".toList) acceptAll)
      testClientIP 31337 ctx0 tcp target world0
      (dialTo (some "localhost:8080".toList) acceptAll ctx0 tcp target world0).2 0
      "localhost:8080".toList rfl rfl
      (Or.inr ⟨"localhost".toList, "8080".toList, by decide, Or.inr (by decide)⟩)⟩

/-- C6: when the real dial succeeds, the remote address is well formed (header
`h` is built and serialises to `buf`), and the connection's `Write` of the header
fails with error `e`, `DialContext` returns the connection with the `errors.New`
error whose message is `writing Proxy Protocol header: ` followed by `e.Error()`;
the call made exactly one `Write`, with the whole header. -/
theorem DialContext_header_write_failed (real : DialFn) (clientIP : IP) (clientPort : Int)
    (ctx : Context) (network addr : GoString) (w w1 : World) (c : Nat) (ra : GoString)
    (h : Header) (buf : GoString) (n : Nat) (e : GoError)
    (hdial : real ctx network addr w = (.ret (some c) none, w1))
    (hra : (w1.conns c).remoteAddr = some ra)
    (hhdr : buildHeader ⟨some real, clientIP, clientPort⟩ ra = .ok h)
    (hfmt : Format h = .ok buf)
    (hresp : (w1.conns c).respond (w1.conns c).wire buf = (n, some e))
    (hn : n ≤ buf.length) :
    (DialContext ⟨some real, clientIP, clientPort⟩ ctx network addr w).out =
        .ret (some c)
          (some (errorsNew ("writing Proxy Protocol header: ".toList ++ e.Error))) ∧
      (DialContext ⟨some real, clientIP, clientPort⟩ ctx network addr w).trace.filter
        Event.isConnWrite = [.connWrite c buf] ∧
      ((DialContext ⟨some real, clientIP, clientPort⟩ ctx network addr w).world.conns c).writeCalls =
        (w1.conns c).writeCalls ++ [buf] := by
  rw [DialContext_write_error hdial hra hhdr hfmt hresp hn]
  refine ⟨rfl, by simp [Event.isConnWrite], ?_⟩
  exact (connWrite_conns_same c buf w1).2.1

/-- Witness for C6: remote address `127.0.0.1:8080` on a connection whose `Write`
fails with "broken pipe". -/
theorem DialContext_header_write_failed_witness :
    (DialContext (testInterceptor (dialTo (some "127.0.0.1:8080".toList)
          (rejectAll (.foreign 9 "broken pipe".toList)))) ctx0 tcp target world0).out =
        .ret (some 0) (some (errorsNew "writing Proxy Protocol header: broken pipe".toList)) ∧
      ((DialContext (testInterceptor (dialTo (some "127.0.0.1:8080".toList)
          (rejectAll (.foreign 9 "broken pipe".toList)))) ctx0 tcp target world0).world.conns 0).writeCalls =
        [] ++ ["PROXY TCP4 192.0.2.42 127.0.0.1 31337 8080\r\n".toList] :=
  have h := DialContext_header_write_failed
    (dialTo (some "127.0.0.1:8080".toList) (rejectAll (.foreign 9 "broken pipe".toList)))
    testClientIP 31337 ctx0 tcp target world0
    (dialTo (some "127.0.0.1:8080".toList) (rejectAll (.foreign 9 "broken pipe".toList)) ctx0 tcp
      target world0).2 0 "127.0.0.1:8080".toList
    (proxyHeader testClientIP 31337 [127, 0, 0, 1] 8080)
    "PROXY TCP4 192.0.2.42 127.0.0.1 31337 8080\r\n".toList 0 (.foreign 9 "broken pipe".toList)
    rfl rfl
    (@buildHeader_of_parse _ "127.0.0.1:8080".toList "127.0.0.1".toList "8080".toList 8080
      (IPv4 127 0 0 1) (by decide) (by decide) (by decide))
    ((Format_tcp4 testClientIP [127, 0, 0, 1] 31337 8080).trans (by decide)) rfl (by decide)
  ⟨h.1, h.2.2⟩

/-- C7: after a successful real dial that returned connection `c` (whose `Write`
never reports more bytes than it was given), `DialContext` returns, and on every
path the connection it returns is `c`; no connection's closed flag is changed by
the call; and the error returned is nil exactly on the full-success path, where
the remote address is known, the header is built and serialised, and the
connection accepts the whole header without error. -/
theorem DialContext_returns_the_dialed_connection (real : DialFn) (clientIP : IP)
    (clientPort : Int) (ctx : Context) (network addr : GoString) (w w1 : World) (c : Nat)
    (hdial : real ctx network addr w = (.ret (some c) none, w1))
    (hcontract : ∀ wire p, ((w1.conns c).respond wire p).1 ≤ p.length) :
    ∃ err, (DialContext ⟨some real, clientIP, clientPort⟩ ctx network addr w).out =
        .ret (some c) err ∧
      (∀ k, ((DialContext ⟨some real, clientIP, clientPort⟩ ctx network addr w).world.conns k).closed =
        (w1.conns k).closed) ∧
      (err = none ↔ ∃ ra h buf, (w1.conns c).remoteAddr = some ra ∧
        buildHeader ⟨some real, clientIP, clientPort⟩ ra = .ok h ∧ Format h = .ok buf ∧
        (w1.conns c).respond (w1.conns c).wire buf = (buf.length, none)) := by
  obtain ⟨err, herr⟩ :=
    @DialContext_returns_conn real clientIP clientPort ctx network addr w w1 c hdial hcontract
  refine ⟨err, herr, fun k => DialContext_world_closed hdial k, ?_⟩
  constructor
  · intro hnone
    subst hnone
    obtain ⟨c2, ra, h, buf, hc, hr1, hra, hh, hf, hresp⟩ := DialContext_success_inv herr
    rw [hdial] at hr1 hra hresp
    cases hc
    exact ⟨ra, h, buf, hra, hh, hf, hresp⟩
  · rintro ⟨ra, h, buf, hra, hh, hf, hresp⟩
    rw [DialContext_full_success hdial hra hh hf hresp] at herr
    cases herr
    rfl

/-- Witness for C7: the repository's test scenario; the connection returned is
the one dialed. -/
theorem DialContext_returns_the_dialed_connection_witness :
    (∀ wire p, (((dialTo (some "127.0.0.1:8080".toList) acceptAll ctx0 tcp target world0).2.conns
        0).respond wire p).1 ≤ p.length) ∧
      ∃ err, (DialContext (testInterceptor (dialTo (some "127.0.0.1:8080".toList) acceptAll)) ctx0
          tcp target world0).out = .ret (some 0) err :=
  ⟨fun _ _ => Nat.le_refl _,
    (DialContext_returns_the_dialed_connection (dialTo (some "127.0.0.1:8080".toList) acceptAll)
      testClientIP 31337 ctx0 tcp target world0
      (dialTo (some "127.0.0.1:8080".toList) acceptAll ctx0 tcp target world0).2 0 rfl
      (fun _ _ => Nat.le_refl _)).imp fun _ h => h.1⟩

/-- C8: if `DialContext` returns a nil error, the call made exactly one `Write`,
on the connection it returns, with one complete serialised header, and the
connection accepted all of it before the call returned; if the real dial failed,
or the connection has no remote address, or the remote address is malformed, the
call returns a non-nil error, made no `Write` and left the world as the real dial
left it. -/
theorem DialContext_header_written_exactly_once (real : DialFn) (clientIP : IP)
    (clientPort : Int) (ctx : Context) (network addr : GoString) (w : World) :
    (∀ conn, (DialContext ⟨some real, clientIP, clientPort⟩ ctx network addr w).out =
        .ret conn none →
      ∃ c ra h buf, conn = some c ∧ (real ctx network addr w).1 = .ret (some c) none ∧
        ((real ctx network addr w).2.conns c).remoteAddr = some ra ∧
        buildHeader ⟨some real, clientIP, clientPort⟩ ra = .ok h ∧ Format h = .ok buf ∧
        (DialContext ⟨some real, clientIP, clientPort⟩ ctx network addr w).trace =
          [.callReal ctx network addr, .buildHeader h, .connWrite c buf] ∧
        ((DialContext ⟨some real, clientIP, clientPort⟩ ctx network addr w).world.conns c).wire =
          ((real ctx network addr w).2.conns c).wire ++ buf ∧
        ((DialContext ⟨some real, clientIP, clientPort⟩ ctx network addr w).world.conns c).writeCalls =
          ((real ctx network addr w).2.conns c).writeCalls ++ [buf]) ∧
    (((∃ conn e, (real ctx network addr w).1 = .ret conn (some e)) ∨
        ∃ c, (real ctx network addr w).1 = .ret (some c) none ∧
          (((real ctx network addr w).2.conns c).remoteAddr = none ∨
            ∃ ra e, ((real ctx network addr w).2.conns c).remoteAddr = some ra ∧
              buildHeader ⟨some real, clientIP, clientPort⟩ ra = .error e)) →
      (∃ conn e, (DialContext ⟨some real, clientIP, clientPort⟩ ctx network addr w).out =
          .ret conn (some e)) ∧
        (DialContext ⟨some real, clientIP, clientPort⟩ ctx network addr w).world =
          (real ctx network addr w).2 ∧
        (DialContext ⟨some real, clientIP, clientPort⟩ ctx network addr w).trace.filter
          Event.isConnWrite = []) := by
  constructor
  · intro conn hout
    obtain ⟨c, ra, h, buf, hc, hr1, hra, hh, hf, hresp⟩ := DialContext_success_inv hout
    have hdial : real ctx network addr w = (.ret (some c) none, (real ctx network addr w).2) :=
      Prod.ext hr1 rfl
    have hrun := DialContext_full_success hdial hra hh hf hresp
    refine ⟨c, ra, h, buf, hc, hr1, hra, hh, hf, ?_, ?_, ?_⟩
    · rw [hrun]
    · rw [hrun, (connWrite_conns_same c buf _).1, hresp]
      simp
    · rw [hrun, (connWrite_conns_same c buf _).2.1]
  · rintro (⟨conn, e, hr1⟩ | ⟨c, hr1, hra | ⟨ra, e, hra, hh⟩⟩)
    · have hdial : real ctx network addr w = (.ret conn (some e), (real ctx network addr w).2) :=
        Prod.ext hr1 rfl
      rw [DialContext_dial_error hdial]
      exact ⟨⟨conn, e, rfl⟩, rfl, by simp [Event.isConnWrite]⟩
    · have hdial : real ctx network addr w = (.ret (some c) none, (real ctx network addr w).2) :=
        Prod.ext hr1 rfl
      rw [DialContext_no_remote hdial hra]
      exact ⟨⟨_, _, rfl⟩, rfl, by simp [Event.isConnWrite]⟩
    · have hdial : real ctx network addr w = (.ret (some c) none, (real ctx network addr w).2) :=
        Prod.ext hr1 rfl
      rw [DialContext_bad_addr hdial hra hh]
      exact ⟨⟨_, _, rfl⟩, rfl, by simp [Event.isConnWrite]⟩

/-- Witness for C8: the repository's test scenario returns a nil error, and the
one `Write` of the call carried the whole header line. -/
theorem DialContext_header_written_exactly_once_witness :
    (DialContext (testInterceptor (dialTo (some "127.0.0.1:8080".toList) acceptAll)) ctx0 tcp
        target world0).out = .ret (some 0) none ∧
      ∃ c ra h buf, some 0 = some c ∧
        (dialTo (some "127.0.0.1:8080".toList) acceptAll ctx0 tcp target world0).1 =
          .ret (some c) none ∧
        ((dialTo (some "127.0.0.1:8080".toList) acceptAll ctx0 tcp target world0).2.conns
          c).remoteAddr = some ra ∧
        buildHeader (testInterceptor (dialTo (some "127.0.0.1:8080".toList) acceptAll)) ra = .ok h ∧
        Format h = .ok buf ∧
        (DialContext (testInterceptor (dialTo (some "127.0.0.1:8080".toList) acceptAll)) ctx0 tcp
          target world0).trace = [.callReal ctx0 tcp target, .buildHeader h, .connWrite c buf] ∧
        ((DialContext (testInterceptor (dialTo (some "127.0.0.1:8080".toList) acceptAll)) ctx0 tcp
          target world0).world.conns c).wire =
          ((dialTo (some "127.0.0.1:8080".toList) acceptAll ctx0 tcp target world0).2.conns c).wire ++
            buf ∧
        ((DialContext (testInterceptor (dialTo (some "127.0.0.1:8080".toList) acceptAll)) ctx0 tcp
          target world0).world.conns c).writeCalls =
          ((dialTo (some "127.0.0.1:8080".toList) acceptAll ctx0 tcp target
            world0).2.conns c).writeCalls ++ [buf] :=
  ⟨by decide,
    (DialContext_header_written_exactly_once (dialTo (some "127.0.0.1:8080".toList) acceptAll)
      testClientIP 31337 ctx0 tcp target world0).1 (some 0) (by decide)⟩

/-- C9 (the code at the failing input): after `New(192.0.2.1, 1111, tr)` and
`New(192.0.2.2, 2222, tr)` on the same caller-supplied transport, both calls
returned a round-tripper over the same `tr`, whose dial function now passes
through both interceptors: a successful dial through the second round-tripper
returns a connection carrying two header lines, the first announcing
`192.0.2.1:1111`, and not the single line of the second call's endpoint. -/
theorem New_twice_writes_two_headers :
    firstRoundTripper = secondRoundTripper ∧
    (secondRoundTripper.dial heapTwice).map
        (fun f => ((f ctx0 tcp target world0).1,
          ((f ctx0 tcp target world0).2.conns 0).wire,
          ((f ctx0 tcp target world0).2.conns 0).writeCalls)) =
      some (.ret (some 0) none,
        ("PROXY TCP4 192.0.2.1 127.0.0.1 1111 8080\r\n" ++
          "PROXY TCP4 192.0.2.2 127.0.0.1 2222 8080\r\n").toList,
        ["PROXY TCP4 192.0.2.1 127.0.0.1 1111 8080\r\n".toList,
          "PROXY TCP4 192.0.2.2 127.0.0.1 2222 8080\r\n".toList]) ∧
    (secondRoundTripper.dial heapTwice).map
        (fun f => ((f ctx0 tcp target world0).2.conns 0).wire) ≠
      some "PROXY TCP4 192.0.2.2 127.0.0.1 2222 8080\r\n".toList := by
  refine ⟨by decide, by decide, by decide⟩

/-- C10 (the code at the failing input): `New` applied to a caller-supplied
transport whose `DialContext` field is unset (the zero value `http.Transport{}`)
installs an interceptor whose `real` is the nil func value, and every dial
through the returned round-tripper panics on calling it. -/
theorem New_zero_transport_dial_panics (netDial : Dialer → DialFn) (clientIP : IP)
    (clientPort : Int) (ctx : Context) (network addr : GoString) (w : World) :
    (heapWith none).cell 0 = zeroTransport ∧
      ∃ f, transport.dial (New netDial clientIP clientPort (some 0) (heapWith none)).1
          (New netDial clientIP clientPort (some 0) (heapWith none)).2 = some f ∧
        f = dialContextIntercepter.asDialFn
          { real := none, clientIP := clientIP, clientPort := clientPort } ∧
        f ctx network addr w = (.panic, w) := by
  refine ⟨rfl, _, ?_, rfl, rfl⟩
  rw [(New_supplied netDial clientIP clientPort 0 (heapWith none)).1]
  exact (New_supplied netDial clientIP clientPort 0 (heapWith none)).2

end Httpppc
